import Mathlib

/-!
Shallow embedding of the recipe recommendation core ("Quick Pick" / "Smart
Match") of `server.js`, covering the cooking branch of `GET /recommend`
(filter normalization, the Quick Pick SQL queries and their quality
classification, the weak-match ai-tag fallback query, the Smart Match
branch with its external reasoning call, tag write-back and usage-ledger
write), the `trackAIUsage` helper, and the per-recipe step of the
`/generate-all-ai-tags` bulk job.

Modelling conventions:
* The recipe store (`meals` rows with `meal_type = 'recipe'`) is a
  `List Recipe`; only the columns the core reads are carried (display-only
  columns such as `prep_time` do not influence control flow).
* SQL `ORDER BY ... RANDOM() LIMIT n` is modelled by taking the list order
  of the store as the realized random order, so quantifying over all store
  orders covers all random outcomes; `LIMIT 1` with sort keys picks the
  first list element attaining the lexicographically greatest key.
* `COUNT(*)` values are `Nat`.  The JS float comparisons
  `match_count < len * 0.5` and `match_count >= len * 0.66` are rendered
  as the exact rational comparisons `2*m < n` and `66*n ≤ 100*m`; `0.5` is
  exact in binary and the double rounding of `n * 0.66` agrees with the
  rational comparison for every feasible filter count.
* The external reasoning call, the tag write-back and the ledger insert
  are effectful collaborators; their outcomes are explicit inputs
  (`AIOutcome`, `tagWriteOk`, `ledgerOk`).
* Costs are in thousandths of a dollar, so the fixed Smart Match cost
  `0.015` is `15`.
-/

namespace YummyCore

/-- A `meals` row with `meal_type = 'recipe'`, restricted to the columns the
recommendation core reads: `id`, `name`, the curated `tags` array and the
inferred `ai_tags` array. -/
structure Recipe where
  id : Nat
  name : String
  tags : List String
  ai_tags : List String
deriving DecidableEq

/-- One row of the `ai_usage` table: feature name and estimated cost in
thousandths of a dollar (`trackAIUsage('smart_match', 0.015)` appends
`⟨"smart_match", 15⟩`). -/
structure UsageRecord where
  feature : String
  costMilli : Nat
deriving DecidableEq

/-- The mutable state the `/recommend` handler touches: the recipe store and
the append-only usage ledger. -/
structure SystemState where
  store : List Recipe
  ledger : List UsageRecord
deriving DecidableEq

/-- The fixed `filterToTagMap` object of `server.js` (lines 2037–2049),
mapping user-facing filter identifiers to canonical tag names. -/
def filterToTagMap (f : String) : Option String :=
  match f with
  | "main-dish" => some "Main Dish"
  | "salad" => some "Salad"
  | "side-dish" => some "Side Dish"
  | "dessert" => some "Dessert"
  | "appetizer" => some "Appetizer"
  | "soup" => some "Soup"
  | "healthy" => some "Healthy"
  | "quick" => some "Quick (< 30 min)"
  | "filling" => some "Hearty"
  | "comfort" => some "Comfort Food"
  | "complex" => some "Hard"
  | _ => none

/-- Lowercasing of one character (the strings in play are ASCII). -/
def charLower (c : Char) : Char :=
  if 65 ≤ c.toNat ∧ c.toNat ≤ 90 then Char.ofNat (c.toNat + 32) else c

/-- JS `String.prototype.toLowerCase` / SQL `lower` on ASCII strings. -/
def strLower (s : String) : String :=
  ⟨s.toList.map charLower⟩

/-- JS `String.prototype.startsWith`. -/
def strStartsWith (s pre : String) : Bool :=
  pre.toList.isPrefixOf s.toList

/-- The `tagFilters` derivation (lines 2052–2055): drop identifiers starting
with the wildcard sentinel `any-`, map through `filterToTagMap` with the
identifier itself as fallback (`filterToTagMap[f] || f`), and drop falsy
(empty-string) results (`.filter(Boolean)`). -/
def tagFilters (filterArray : List String) : List String :=
  ((filterArray.filter (fun f => !(strStartsWith f "any-"))).map
    (fun f => (filterToTagMap f).getD f)).filter (fun t => t != "")

/-- SQL subquery `(SELECT COUNT(*) FROM unnest(tags) tag WHERE tag = ANY($1::text[]))`:
number of curated tag entries of the recipe appearing in the filter list. -/
def matchCount (filters : List String) (r : Recipe) : Nat :=
  (r.tags.filter (fun t => filters.contains t)).length

/-- The SQL array-overlap condition `tags && $1::text[]`. -/
def overlapsTags (filters : List String) (r : Recipe) : Bool :=
  r.tags.any (fun t => filters.contains t)

/-- Fuel-indexed SQL `LIKE` matcher over character lists (`%` matches any
run, `_` matches one character, other characters literally).  Each
recursive call strictly decreases `pat.length + s.length`, so any fuel
above that sum makes the fuel inexhaustible. -/
def likeAux : Nat → List Char → List Char → Bool
  | 0, _, _ => false
  | _ + 1, [], s => s.isEmpty
  | fuel + 1, '%' :: p, s =>
    likeAux fuel p s ||
      (match s with
       | [] => false
       | _ :: s2 => likeAux fuel ('%' :: p) s2)
  | fuel + 1, '_' :: p, _ :: s => likeAux fuel p s
  | fuel + 1, a :: p, c :: s => a == c && likeAux fuel p s
  | _ + 1, _ :: _, [] => false

/-- SQL `LIKE` with sufficient fuel. -/
def likeMatch (pat s : List Char) : Bool :=
  likeAux (pat.length + s.length + 1) pat s

/-- SQL `ILIKE`: case-insensitive `LIKE`. -/
def ilike (s pat : String) : Bool :=
  likeMatch (strLower pat).toList (strLower s).toList

/-- Whether `needle` occurs as a contiguous run inside the haystack. -/
def charsContain (needle : List Char) : List Char → Bool
  | [] => needle.isEmpty
  | c :: rest => needle.isPrefixOf (c :: rest) || charsContain needle rest

/-- JS `String.prototype.includes`: substring test. -/
def containsSub (s sub : String) : Bool :=
  charsContain sub.toList s.toList

/-- The synonym expansion of one filter tag (lines 2213–2226): the
lowercased tag itself plus fixed synonym lists keyed on substrings of the
lowercased tag. -/
def expandTerms (tag : String) : List String :=
  let lower := strLower tag
  [lower]
    ++ (if containsSub lower "quick" then ["fast", "weeknight", "30 min"] else [])
    ++ (if containsSub lower "healthy" then ["nutritious", "light", "fresh"] else [])
    ++ (if containsSub lower "hearty" then ["filling", "substantial", "satisfying"] else [])
    ++ (if containsSub lower "comfort" then ["cozy", "indulgent", "rich"] else [])
    ++ (if containsSub lower "main dish" then ["entree", "main course", "dinner"] else [])

/-- Expansion of the whole filter list, `tagFilters.flatMap(tag => ...)`. -/
def expandedTerms (filters : List String) : List String :=
  filters.flatMap expandTerms

/-- The pattern array `expandedTerms.map(t => '%' + t + '%')` passed as
`$2` to the weak-match fallback query. -/
def aiPatterns (filters : List String) : List String :=
  (expandedTerms filters).map (fun t => "%" ++ t ++ "%")

/-- SQL subquery `(SELECT COUNT(*) FROM unnest(ai_tags) tag WHERE tag ILIKE ANY($2::text[]))`:
number of inferred tag entries matching some expansion pattern. -/
def aiMatchCount (filters : List String) (r : Recipe) : Nat :=
  (r.ai_tags.filter (fun t => (aiPatterns filters).any (fun p => ilike t p))).length

/-- The WHERE condition of the weak-match fallback query (line 2235):
`tags && $1::text[] OR ai_tags && $2::text[]`.  Note that the second
disjunct is a literal array overlap between `ai_tags` and the `%`-wrapped
pattern strings, not an `ILIKE` match. -/
def aiWhereHit (filters : List String) (r : Recipe) : Bool :=
  overlapsTags filters r || r.ai_tags.any (fun t => (aiPatterns filters).contains t)

/-- Weak (non-strict) lexicographic comparison of the two sort keys. -/
def lexGe (a b : Nat × Nat) : Bool :=
  decide (b.1 < a.1 ∨ (a.1 = b.1 ∧ b.2 ≤ a.2))

/-- Model of `ORDER BY key₁ DESC, key₂ DESC, RANDOM() LIMIT 1`: first list element
attaining the lexicographically greatest key, the list order standing for
the realized random tie-break order. -/
def argmaxFirst (key : Recipe → Nat × Nat) : List Recipe → Option Recipe
  | [] => none
  | r :: rs =>
    match argmaxFirst key rs with
    | none => some r
    | some b => if lexGe (key r) (key b) then some r else some b

/-- The primary Quick Pick query (lines 2197–2206): rows with curated
overlap, ordered by `match_count DESC, RANDOM()`, `LIMIT 1`. -/
def primaryRow (store : List Recipe) (filters : List String) : Option Recipe :=
  argmaxFirst (fun r => (matchCount filters r, 0))
    (store.filter (overlapsTags filters))

/-- The weak-match fallback query `aiQuery` (lines 2229–2240): rows
satisfying `aiWhereHit`, ordered by
`match_count DESC, ai_match_count DESC, RANDOM()`, `LIMIT 1`. -/
def aiRow (store : List Recipe) (filters : List String) : Option Recipe :=
  argmaxFirst (fun r => (matchCount filters r, aiMatchCount filters r))
    (store.filter (aiWhereHit filters))

/-- The three curated-match quality banners of the primary result. -/
inductive Quality where
  | perfect
  | great
  | close
deriving DecidableEq

/-- The quality banner chain (lines 2267–2299): `matchCount === n` →
perfect; `matchCount >= n * 0.66` → great; otherwise close (`66*n ≤ 100*m`
is the exact form of the float comparison, see the header). -/
def classifyQuality (m n : Nat) : Quality :=
  if m = n then Quality.perfect
  else if 66 * n ≤ 100 * m then Quality.great
  else Quality.close

/-- The distinct response shapes of the cooking branch of `/recommend`. -/
inductive Response where
  | noRecipes
  | plainRecipe (r : Recipe)
  | smart (r : Recipe) (reasoning : String)
  | inferredMatch (r : Recipe)
  | primaryMatch (r : Recipe) (q : Quality)
  | randomFallback (r : Recipe)
deriving DecidableEq

/-- The recipe carried by a response, if any (`noRecipes` is the only
recipe-less response). -/
def Response.recipeOf : Response → Option Recipe
  | Response.noRecipes => none
  | Response.plainRecipe r => some r
  | Response.smart r _ => some r
  | Response.inferredMatch r => some r
  | Response.primaryMatch r _ => some r
  | Response.randomFallback r => some r

/-- The shared "no filters or no matches" tail (lines 2310–2329): a
uniformly random recipe — realized as the store head — or the
`No Recipes Found` response when the store is empty. -/
def fallbackRandom (store : List Recipe) : Response :=
  match store with
  | [] => Response.noRecipes
  | r :: _ => Response.randomFallback r

/-- The weak-match test (line 2209):
`result.rows.length === 0 || result.rows[0].match_count < tagFilters.length * 0.5`. -/
def weakMatch (filters : List String) (result : Option Recipe) : Bool :=
  match result with
  | none => true
  | some best => decide (2 * matchCount filters best < filters.length)

/-- The guarded replacement of the weak-match fallback (line 2242): the
fallback row is used only when it exists and has `ai_match_count > 0`. -/
def inferredLookup (store : List Recipe) (filters : List String) : Option Recipe :=
  match aiRow store filters with
  | some r => if 0 < aiMatchCount filters r then some r else none
  | none => none

/-- The Quick Pick path (lines 2195–2329) for a canonical filter list. -/
def quickPick (store : List Recipe) (filters : List String) : Response :=
  if 0 < filters.length then
    match (if weakMatch filters (primaryRow store filters) then
             inferredLookup store filters
           else none) with
    | some r => Response.inferredMatch r
    | none =>
      match primaryRow store filters with
      | some best =>
        Response.primaryMatch best
          (classifyQuality (matchCount filters best) filters.length)
      | none => fallbackRandom store
  else fallbackRandom store

/-- Outcome of the external reasoning call as observed by the handler:
transport error (fetch or body read throws), non-success HTTP status,
unparsable body, or a parsed `{topChoice, aiTags, reasoning}` object. -/
inductive AIOutcome where
  | transportError
  | notOk
  | parseError
  | success (topChoice : Int) (aiTags : List String) (reasoning : String)

/-- The `ai_tags` UPDATE used by both Smart Match (lines 2152–2161) and the
bulk job (lines 2919–2928):
`SET ai_tags = array_cat(COALESCE(ai_tags, ARRAY[]::text[]), $1::text[]) WHERE id = $2` —
a single server-side concatenation onto the stored value. -/
def appendAiTags (store : List Recipe) (targetId : Nat) (newTags : List String) :
    List Recipe :=
  store.map (fun r =>
    if r.id = targetId then { r with ai_tags := r.ai_tags ++ newTags } else r)

/-- The helper `trackAIUsage(feature, estimatedCost)` (lines 983–993): appends one row
to `ai_usage` when the insert succeeds and swallows the error otherwise —
it never throws into its caller. -/
def trackAIUsage (ledger : List UsageRecord) (feature : String) (costMilli : Nat)
    (insertOk : Bool) : List UsageRecord :=
  if insertOk then ledger ++ [⟨feature, costMilli⟩] else ledger

/-- The Smart Match shortlist query (line 2061):
`tags && $1::text[] ORDER BY RANDOM() LIMIT 15`. -/
def smartCandidates (store : List Recipe) (filters : List String) : List Recipe :=
  (store.filter (overlapsTags filters)).take 15

/-- Model of `candidates.rows[aiResult.topChoice - 1]` (line 2147): defined exactly
when `topChoice` lies in `1..len`; any other index yields JS `undefined`. -/
def chosenIndex (topChoice : Int) (len : Nat) : Option Nat :=
  if 1 ≤ topChoice ∧ topChoice ≤ (len : Int) then some (topChoice - 1).toNat
  else none

/-- The Smart Match branch (lines 2057–2190).  Returns `none` as first
component when control falls through to Quick Pick (external call failed,
non-ok status, parse error, or the chosen recipe was `undefined` so that
rendering threw inside the catch-all).  On the empty shortlist it
short-circuits without an external call; on full success it performs the
best-effort tag write (its own error handler swallows failures), appends
one usage record via `trackAIUsage`, and returns the chosen recipe with the
rationale. -/
def smartMatchBranch (st : SystemState) (filters : List String) (ai : AIOutcome)
    (tagWriteOk ledgerOk : Bool) : Option Response × SystemState :=
  match smartCandidates st.store filters with
  | [] =>
    match st.store with
    | [] => (some Response.noRecipes, st)
    | r :: _ => (some (Response.plainRecipe r), st)
  | c :: cs =>
    match ai with
    | AIOutcome.success topChoice aiTags reasoning =>
      match (chosenIndex topChoice (c :: cs).length).bind
          (fun i => (c :: cs)[i]?) with
      | some chosen =>
        (some (Response.smart chosen reasoning),
         { store :=
             if 0 < aiTags.length ∧ tagWriteOk = true then
               appendAiTags st.store chosen.id aiTags
             else st.store,
           ledger := trackAIUsage st.ledger "smart_match" 15 ledgerOk })
      | none => (none, st)
    | _ => (none, st)

/-- The cooking branch of `GET /recommend` (lines 2033–2330): normalize the
filters, run Smart Match when requested with non-empty filters
(`smartMatch === 'true' && tagFilters.length > 0`), fall through to Quick
Pick otherwise or when Smart Match fails. -/
def recommendCooking (st : SystemState) (filterArray : List String)
    (smartMatch : Bool) (ai : AIOutcome) (tagWriteOk ledgerOk : Bool) :
    Response × SystemState :=
  if smartMatch = true ∧ 0 < (tagFilters filterArray).length then
    match smartMatchBranch st (tagFilters filterArray) ai tagWriteOk ledgerOk with
    | (some resp, st2) => (resp, st2)
    | (none, st2) => (quickPick st2.store (tagFilters filterArray), st2)
  else (quickPick st.store (tagFilters filterArray), st)

/-- One per-recipe step of `/generate-all-ai-tags` (lines 2868–2948):
`parsed = some ts` is a parsed JSON array; a non-empty array triggers the
same `array_cat` UPDATE plus one `bulk_ai_tagging` usage record; a parse
failure or empty array writes nothing. -/
def bulkTagStep (st : SystemState) (recipeId : Nat)
    (parsed : Option (List String)) (ledgerOk : Bool) : SystemState :=
  match parsed with
  | some aiTags =>
    if 0 < aiTags.length then
      { store := appendAiTags st.store recipeId aiTags,
        ledger := trackAIUsage st.ledger "bulk_ai_tagging" 15 ledgerOk }
    else st
  | none => st

/-! Concrete fixtures used by the evaluation theorems and witnesses. -/

/-- A recipe fully matching the `main-dish` filter. -/
def rMainDish : Recipe := ⟨1, "Chicken Fajitas", ["Main Dish"], []⟩

/-- A dessert recipe with no inferred tags. -/
def rDessert : Recipe := ⟨2, "Chocolate Cake", ["Dessert"], []⟩

/-- A recipe with no curated tags whose only matching signal is the
inferred tag `weeknight friendly`. -/
def rStirFry : Recipe := ⟨3, "Veggie Stir Fry", [], ["weeknight friendly"]⟩

/-- A recipe with two curated matches and no inferred tags. -/
def rBigSalad : Recipe := ⟨4, "Big Salad", ["Healthy", "Salad"], []⟩

/-- A recipe with one curated match and an inferred tag matching the
`%fast%` expansion of `quick`. -/
def rFastBowl : Recipe := ⟨5, "Fast Bowl", ["Healthy"], ["super fast meal"]⟩

/-- The five canonical filters used by the ranking counterscenario. -/
def fiveFilters : List String :=
  ["Quick (< 30 min)", "Healthy", "Comfort Food", "Salad", "Dessert"]

end YummyCore

namespace YummyCore

/-! ## Helper lemmas -/

theorem classifyQuality_spec (m n : Nat) :
    (classifyQuality m n = Quality.perfect ↔ m = n) ∧
    (classifyQuality m n = Quality.great ↔ (m ≠ n ∧ 66 * n ≤ 100 * m)) ∧
    (classifyQuality m n = Quality.close ↔ (m ≠ n ∧ ¬ 66 * n ≤ 100 * m)) := by
  unfold classifyQuality
  by_cases h1 : m = n <;> by_cases h2 : 66 * n ≤ 100 * m <;> simp [h1, h2]

theorem filterToTagMap_ne_empty (f v : String) (h : filterToTagMap f = some v) :
    v ≠ "" := by
  unfold filterToTagMap at h
  split at h <;>
    first
      | (injection h with h2; subst h2; decide)
      | exact Option.noConfusion h

theorem primaryRow_nil (filters : List String) : primaryRow [] filters = none := rfl

theorem aiRow_nil (filters : List String) : aiRow [] filters = none := rfl

theorem inferredLookup_nil (filters : List String) :
    inferredLookup [] filters = none := rfl

theorem quickPick_nil (filters : List String) :
    quickPick [] filters = Response.noRecipes := by
  unfold quickPick
  simp [primaryRow_nil, inferredLookup_nil, fallbackRandom, ite_self]

theorem quickPick_noRecipes_iff (store : List Recipe) (filters : List String) :
    quickPick store filters = Response.noRecipes ↔ store = [] := by
  constructor
  · intro h
    cases store with
    | nil => rfl
    | cons r rs =>
      exfalso
      unfold quickPick at h
      split at h
      · split at h
        · simp at h
        · split at h
          · simp at h
          · simp [fallbackRandom] at h
      · simp [fallbackRandom] at h
  · intro h; subst h; exact quickPick_nil filters

/-! ## Claim theorems -/

/-- C9: Filter normalization drops every identifier carrying the reserved
wildcard `any-` prefix and maps each remaining identifier through the fixed
`filterToTagMap`; an identifier with no known mapping passes through
unchanged as a literal tag rather than being dropped or raising an error
(assuming, as the upstream `filters.split(',').filter(f => f)` guarantees,
that no identifier is the empty string). -/
theorem tagFilters_normalization (fa : List String) (h : ∀ f ∈ fa, f ≠ "") :
    tagFilters fa = (fa.filter (fun f => !(strStartsWith f "any-"))).map
      (fun f => (filterToTagMap f).getD f) := by
  unfold tagFilters
  apply List.filter_eq_self.mpr
  intro t ht
  rcases List.mem_map.mp ht with ⟨f, hf, rfl⟩
  have hfa : f ∈ fa := (List.mem_filter.mp hf).1
  have hne : f ≠ "" := h f hfa
  simp only [bne_iff_ne, ne_eq]
  cases hm : filterToTagMap f with
  | none => simpa [hm] using hne
  | some v => simpa [hm] using filterToTagMap_ne_empty f v hm

/-- Witness for C9 at a concrete filter list containing a mapped
identifier, a wildcard identifier and an unmapped identifier. -/
theorem tagFilters_normalization_witness :
    tagFilters ["quick", "any-protein", "mycustom"] =
      ((["quick", "any-protein", "mycustom"].filter
          (fun f => !(strStartsWith f "any-"))).map
        (fun f => (filterToTagMap f).getD f)) :=
  tagFilters_normalization ["quick", "any-protein", "mycustom"] (by decide)

/-- C1: whenever Quick Pick returns its primary curated-overlap result for a
non-empty canonical filter list, the attached quality is `perfect` iff the
match count equals the number of filters, `great` iff the match count is at
least 0.66 times the number of filters and not perfect, and `close`
otherwise; the quality is carried inside the returned response and every
quality value yields a returned result. -/
theorem quickPick_quality_classification (store : List Recipe)
    (filters : List String) (r : Recipe) (q : Quality) (hne : filters ≠ [])
    (h : quickPick store filters = Response.primaryMatch r q) :
    (q = Quality.perfect ↔ matchCount filters r = filters.length) ∧
    (q = Quality.great ↔ (matchCount filters r ≠ filters.length ∧
        66 * filters.length ≤ 100 * matchCount filters r)) ∧
    (q = Quality.close ↔ (matchCount filters r ≠ filters.length ∧
        100 * matchCount filters r < 66 * filters.length)) := by
  have hq : q = classifyQuality (matchCount filters r) filters.length := by
    unfold quickPick at h
    split at h
    · split at h
      · simp at h
      · split at h
        · injection h with hb hq2
          subst hb
          exact hq2.symm
        · cases store <;> simp [fallbackRandom] at h
    · cases store <;> simp [fallbackRandom] at h
  subst hq
  obtain ⟨h1, h2, h3⟩ := classifyQuality_spec (matchCount filters r) filters.length
  refine ⟨h1, h2, ?_⟩
  rw [h3, Nat.not_le]

/-- Witness for C1: a store with a single fully-matching recipe yields the
`perfect` classification, so its match count equals the filter count. -/
theorem quickPick_quality_classification_witness :
    matchCount ["Main Dish"] rMainDish = (["Main Dish"] : List String).length :=
  ((quickPick_quality_classification [rMainDish] ["Main Dish"] rMainDish
      Quality.perfect (by decide) (by decide)).1).mp rfl

/-- C2 (code bug): the weak-match secondary lookup is claimed to search
recipes whose `ai_tags` case-insensitively match an expansion, but the
query's WHERE clause compares `ai_tags` with the `%`-wrapped patterns by
literal array overlap.  On a store realizing the spec's Scenario B (a
dessert recipe plus a recipe whose only signal is the inferred tag
`weeknight friendly`, which ILIKE-matches the `%weeknight%` expansion of
`quick`), the secondary query finds no rows at all and Quick Pick answers
with the random fallback instead of the inferred match. -/
theorem quickPick_aiFallback_literal_overlap_bug :
    quickPick [rDessert, rStirFry] ["Quick (< 30 min)"] =
      Response.randomFallback rDessert ∧
    0 < aiMatchCount ["Quick (< 30 min)"] rStirFry ∧
    aiWhereHit ["Quick (< 30 min)"] rStirFry = false ∧
    aiRow [rDessert, rStirFry] ["Quick (< 30 min)"] = none := by decide

/-- C4 (code bug): with zero curated-tag overlap across the whole store but
an inferred-tag hit under synonym expansion, Quick Pick is claimed to
return the inferred match; the code instead returns the random "no exact
match" fallback because the WHERE clause never admits ai-tag-only rows. -/
theorem quickPick_inferred_only_store_bug :
    quickPick [rStirFry] ["Quick (< 30 min)"] = Response.randomFallback rStirFry ∧
    matchCount ["Quick (< 30 min)"] rStirFry = 0 ∧
    0 < aiMatchCount ["Quick (< 30 min)"] rStirFry := by decide

/-- C5: the secondary lookup ranks by curated match count before inferred
match count and inspects only the top row.  In this store the weakly
matching `rBigSalad` (two curated matches, no inferred hits) outranks
`rFastBowl` (one curated match, one inferred hit), so the fallback's
single row fails the `ai_match_count > 0` guard and the weak primary
result is kept although an inferred-tag match exists in the store. -/
theorem aiFallback_rank_order_masks_inferred :
    quickPick [rBigSalad, rFastBowl] fiveFilters =
      Response.primaryMatch rBigSalad Quality.close ∧
    weakMatch fiveFilters (primaryRow [rBigSalad, rFastBowl] fiveFilters) = true ∧
    aiRow [rBigSalad, rFastBowl] fiveFilters = some rBigSalad ∧
    aiMatchCount fiveFilters rBigSalad = 0 ∧
    aiWhereHit fiveFilters rFastBowl = true ∧
    0 < aiMatchCount fiveFilters rFastBowl := by decide

theorem chosenIndex_zero (t : Int) : chosenIndex t 0 = none := by
  unfold chosenIndex
  exact if_neg (by rintro ⟨h1, h2⟩; omega)

theorem appendAiTags_nil (store : List Recipe) (targetId : Nat) :
    appendAiTags store targetId [] = store := by
  unfold appendAiTags
  have h : ∀ r : Recipe,
      (if r.id = targetId then { r with ai_tags := r.ai_tags ++ [] } else r) = r := by
    intro r; split <;> simp
  simp [h]

theorem recommend_success_valid_eval (st : SystemState) (fa : List String)
    (t : Int) (tags : List String) (reason : String) (tOk lOk : Bool) (chosen : Recipe)
    (hf : tagFilters fa ≠ [])
    (hch : (chosenIndex t (smartCandidates st.store (tagFilters fa)).length).bind
        (fun i => (smartCandidates st.store (tagFilters fa))[i]?) = some chosen) :
    recommendCooking st fa true (AIOutcome.success t tags reason) tOk lOk =
      (Response.smart chosen reason,
       ⟨if 0 < tags.length ∧ tOk = true then appendAiTags st.store chosen.id tags
         else st.store,
        trackAIUsage st.ledger "smart_match" 15 lOk⟩) := by
  unfold recommendCooking
  rw [if_pos ⟨rfl, List.length_pos.mpr hf⟩]
  unfold smartMatchBranch
  cases hcand : smartCandidates st.store (tagFilters fa) with
  | nil =>
    rw [hcand, List.length_nil, chosenIndex_zero] at hch
    simp at hch
  | cons c cs =>
    rw [hcand] at hch
    simp only [List.length_cons] at hch
    simp [hch]

theorem recommend_success_invalid_eval (st : SystemState) (fa : List String)
    (t : Int) (tags : List String) (reason : String) (tOk lOk : Bool)
    (hf : tagFilters fa ≠ [])
    (hc : smartCandidates st.store (tagFilters fa) ≠ [])
    (hch : (chosenIndex t (smartCandidates st.store (tagFilters fa)).length).bind
        (fun i => (smartCandidates st.store (tagFilters fa))[i]?) = none) :
    recommendCooking st fa true (AIOutcome.success t tags reason) tOk lOk =
      (quickPick st.store (tagFilters fa), st) := by
  unfold recommendCooking
  rw [if_pos ⟨rfl, List.length_pos.mpr hf⟩]
  unfold smartMatchBranch
  cases hcand : smartCandidates st.store (tagFilters fa) with
  | nil => exact absurd hcand hc
  | cons c cs =>
    rw [hcand] at hch
    simp only [List.length_cons] at hch
    simp [hch]

theorem recommend_err_eval (st : SystemState) (fa : List String)
    (ai : AIOutcome) (tOk lOk : Bool)
    (hf : tagFilters fa ≠ [])
    (hc : smartCandidates st.store (tagFilters fa) ≠ [])
    (hai : ai = AIOutcome.transportError ∨ ai = AIOutcome.notOk ∨
      ai = AIOutcome.parseError) :
    recommendCooking st fa true ai tOk lOk =
      (quickPick st.store (tagFilters fa), st) := by
  unfold recommendCooking
  rw [if_pos ⟨rfl, List.length_pos.mpr hf⟩]
  unfold smartMatchBranch
  cases hcand : smartCandidates st.store (tagFilters fa) with
  | nil => exact absurd hcand hc
  | cons c cs =>
    rcases hai with rfl | rfl | rfl <;> simp

theorem recommend_empty_cands_eval (st : SystemState) (fa : List String)
    (ai : AIOutcome) (tOk lOk : Bool)
    (hf : tagFilters fa ≠ [])
    (hc : smartCandidates st.store (tagFilters fa) = []) :
    recommendCooking st fa true ai tOk lOk =
      ((match st.store with
        | [] => Response.noRecipes
        | r :: _ => Response.plainRecipe r), st) := by
  unfold recommendCooking
  rw [if_pos ⟨rfl, List.length_pos.mpr hf⟩]
  unfold smartMatchBranch
  rw [hc]
  cases st.store <;> simp

/-- C3: for every Smart Match invocation (smart mode, non-empty canonical
filters), exactly one usage record with feature `smart_match` and the fixed
cost 0.015 is appended when the external call succeeds and its response is
parsed and rendered (valid top choice) and the insert goes through; none is
appended when the external call fails or is unparsable; and none is
appended when the candidate shortlist is empty and the branch
short-circuits without contacting the external service. -/
theorem smartMatch_usage_ledger (st : SystemState) (fa : List String)
    (ai : AIOutcome) (tOk lOk : Bool) (hf : tagFilters fa ≠ []) :
    ((∃ t tags reason chosen, ai = AIOutcome.success t tags reason ∧
        (chosenIndex t (smartCandidates st.store (tagFilters fa)).length).bind
          (fun i => (smartCandidates st.store (tagFilters fa))[i]?) = some chosen ∧
        lOk = true) →
      (recommendCooking st fa true ai tOk lOk).2.ledger =
        st.ledger ++ [⟨"smart_match", 15⟩]) ∧
    ((ai = AIOutcome.transportError ∨ ai = AIOutcome.notOk ∨
        ai = AIOutcome.parseError) →
      (recommendCooking st fa true ai tOk lOk).2.ledger = st.ledger) ∧
    (smartCandidates st.store (tagFilters fa) = [] →
      (recommendCooking st fa true ai tOk lOk).2.ledger = st.ledger) := by
  refine ⟨?_, ?_, ?_⟩
  · rintro ⟨t, tags, reason, chosen, rfl, hch, rfl⟩
    rw [recommend_success_valid_eval st fa t tags reason tOk true chosen hf hch]
    rfl
  · intro hai
    by_cases hc : smartCandidates st.store (tagFilters fa) = []
    · rw [recommend_empty_cands_eval st fa ai tOk lOk hf hc]
    · rw [recommend_err_eval st fa ai tOk lOk hf hc hai]
  · intro hc
    rw [recommend_empty_cands_eval st fa ai tOk lOk hf hc]

/-- Witness for C3: a one-recipe store, a successful external call choosing
candidate 1, and a working ledger insert produce exactly one
`smart_match` record at cost 15 thousandths. -/
theorem smartMatch_usage_ledger_witness :
    (recommendCooking ⟨[rMainDish], []⟩ ["main-dish"] true
        (AIOutcome.success 1 ["one pot"] "fits") true true).2.ledger =
      [] ++ [⟨"smart_match", 15⟩] :=
  (smartMatch_usage_ledger ⟨[rMainDish], []⟩ ["main-dish"]
      (AIOutcome.success 1 ["one pot"] "fits") true true (by decide)).1
    ⟨1, ["one pot"], "fits", rMainDish, rfl, by decide, rfl⟩

/-- C7: a cooking-mode recommendation yields the distinct `No Recipes
Found` response exactly when the recipe store is completely empty, for
every mode flag, filter list and external outcome; in every other case the
response carries a recipe (the model is total, so no exception or error
status reaches the caller on these paths). -/
theorem recommend_fails_only_on_empty_store (st : SystemState) (fa : List String)
    (sm : Bool) (ai : AIOutcome) (tOk lOk : Bool) :
    ((recommendCooking st fa sm ai tOk lOk).1 = Response.noRecipes ↔
      st.store = []) ∧
    ((recommendCooking st fa sm ai tOk lOk).1.recipeOf = none ↔
      st.store = []) := by
  have recOf : ∀ resp : Response,
      resp.recipeOf = none ↔ resp = Response.noRecipes := by
    intro resp; cases resp <;> simp [Response.recipeOf]
  have main : (recommendCooking st fa sm ai tOk lOk).1 = Response.noRecipes ↔
      st.store = [] := by
    by_cases hcond : sm = true ∧ 0 < (tagFilters fa).length
    · obtain ⟨rfl, hlen⟩ := hcond
      have hf : tagFilters fa ≠ [] := by
        intro hnil; rw [hnil] at hlen; simp at hlen
      by_cases hc : smartCandidates st.store (tagFilters fa) = []
      · rw [recommend_empty_cands_eval st fa ai tOk lOk hf hc]
        cases hs : st.store with
        | nil => simp
        | cons r rs => simp
      · have hst : st.store ≠ [] := by
          intro hnil
          apply hc
          rw [hnil]
          rfl
        cases ai with
        | success t tags reason =>
          cases hch : (chosenIndex t
              (smartCandidates st.store (tagFilters fa)).length).bind
              (fun i => (smartCandidates st.store (tagFilters fa))[i]?) with
          | some chosen =>
            rw [recommend_success_valid_eval st fa t tags reason tOk lOk chosen hf hch]
            simp [hst]
          | none =>
            rw [recommend_success_invalid_eval st fa t tags reason tOk lOk hf hc hch]
            simp [quickPick_noRecipes_iff]
        | transportError =>
          rw [recommend_err_eval st fa _ tOk lOk hf hc (Or.inl rfl)]
          simp [quickPick_noRecipes_iff]
        | notOk =>
          rw [recommend_err_eval st fa _ tOk lOk hf hc (Or.inr (Or.inl rfl))]
          simp [quickPick_noRecipes_iff]
        | parseError =>
          rw [recommend_err_eval st fa _ tOk lOk hf hc (Or.inr (Or.inr rfl))]
          simp [quickPick_noRecipes_iff]
    · have heq : recommendCooking st fa sm ai tOk lOk =
          (quickPick st.store (tagFilters fa), st) := by
        unfold recommendCooking
        rw [if_neg hcond]
      rw [heq]
      exact quickPick_noRecipes_iff st.store (tagFilters fa)
  exact ⟨main, (recOf _).trans main⟩

/-- C8: on a fully successful Smart Match, the chosen recommendation is
returned regardless of whether the ai-tag write-back or the ledger insert
fails (the tag write has its own swallowing handler, `trackAIUsage`
swallows its own errors): the response is the same for every combination of
write outcomes, a failed tag write leaves the store untouched, a failed
ledger insert leaves the ledger untouched, and when both succeed the
returned state already contains both writes. -/
theorem smartMatch_write_failures_nonblocking (st : SystemState) (fa : List String)
    (t : Int) (tags : List String) (reason : String) (chosen : Recipe)
    (hf : tagFilters fa ≠ [])
    (hch : (chosenIndex t (smartCandidates st.store (tagFilters fa)).length).bind
        (fun i => (smartCandidates st.store (tagFilters fa))[i]?) = some chosen) :
    (∀ tOk lOk,
      (recommendCooking st fa true (AIOutcome.success t tags reason) tOk lOk).1 =
        Response.smart chosen reason) ∧
    (∀ lOk,
      (recommendCooking st fa true (AIOutcome.success t tags reason) false lOk).2.store =
        st.store) ∧
    (∀ tOk,
      (recommendCooking st fa true (AIOutcome.success t tags reason) tOk false).2.ledger =
        st.ledger) ∧
    ((recommendCooking st fa true (AIOutcome.success t tags reason) true true).2.ledger =
        st.ledger ++ [⟨"smart_match", 15⟩]) := by
  refine ⟨?_, ?_, ?_, ?_⟩
  · intro tOk lOk
    rw [recommend_success_valid_eval st fa t tags reason tOk lOk chosen hf hch]
  · intro lOk
    rw [recommend_success_valid_eval st fa t tags reason false lOk chosen hf hch]
    simp
  · intro tOk
    rw [recommend_success_valid_eval st fa t tags reason tOk false chosen hf hch]
    rfl
  · rw [recommend_success_valid_eval st fa t tags reason true true chosen hf hch]
    rfl

/-- Witness for C8: with both writes failing, the chosen recipe is still
returned. -/
theorem smartMatch_write_failures_nonblocking_witness :
    (recommendCooking ⟨[rMainDish], []⟩ ["main-dish"] true
        (AIOutcome.success 1 ["one pot"] "fits") false false).1 =
      Response.smart rMainDish "fits" :=
  (smartMatch_write_failures_nonblocking ⟨[rMainDish], []⟩ ["main-dish"] 1
      ["one pot"] "fits" rMainDish (by decide) (by decide)).1 false false

/-- C10: when the external response parses but its `topChoice` lies outside
`1..candidate-count`, the chosen recipe is `undefined`, rendering throws
inside the Smart Match catch-all, no usage record is written, no tag write
happens, no error escapes, and the request falls through to Quick Pick on
the unchanged state. -/
theorem smartMatch_invalid_topChoice_falls_back (st : SystemState)
    (fa : List String) (t : Int) (tags : List String) (reason : String)
    (tOk lOk : Bool)
    (hf : tagFilters fa ≠ [])
    (hc : smartCandidates st.store (tagFilters fa) ≠ [])
    (hidx : chosenIndex t (smartCandidates st.store (tagFilters fa)).length = none) :
    recommendCooking st fa true (AIOutcome.success t tags reason) tOk lOk =
      (quickPick st.store (tagFilters fa), st) := by
  apply recommend_success_invalid_eval st fa t tags reason tOk lOk hf hc
  rw [hidx]
  rfl

/-- Witness for C10: a one-candidate shortlist with `topChoice = 5` falls
through to Quick Pick with store and ledger unchanged. -/
theorem smartMatch_invalid_topChoice_falls_back_witness :
    recommendCooking ⟨[rMainDish], []⟩ ["main-dish"] true
        (AIOutcome.success 5 ["one pot"] "why") true true =
      (quickPick [rMainDish] (tagFilters ["main-dish"]), ⟨[rMainDish], []⟩) :=
  smartMatch_invalid_topChoice_falls_back ⟨[rMainDish], []⟩ ["main-dish"] 5
    ["one pot"] "why" true true (by decide) (by decide) (by decide)

/-- C6: every `ai_tags` write the core performs — through the cooking
recommendation flow or through one bulk-tagging step — is a single
application of the `array_cat` UPDATE `appendAiTags` (possibly the trivial
one with no phrases), and that update leaves every row's `id` and curated
`tags` unchanged while extending the stored `ai_tags` of the targeted row
by exactly the new phrases: the old value stays as a prefix, nothing is
replaced, deduplicated or pruned. -/
theorem ai_tags_append_only (st : SystemState) (fa : List String) (sm : Bool)
    (ai : AIOutcome) (tOk lOk : Bool) (recipeId : Nat)
    (parsed : Option (List String)) :
    (∃ targetId phrases,
      (recommendCooking st fa sm ai tOk lOk).2.store =
        appendAiTags st.store targetId phrases) ∧
    (∃ targetId phrases,
      (bulkTagStep st recipeId parsed lOk).store =
        appendAiTags st.store targetId phrases) ∧
    (∀ (store : List Recipe) (targetId : Nat) (phrases : List String)
        (i : Nat) (rOld : Recipe), store[i]? = some rOld →
      (appendAiTags store targetId phrases)[i]? =
        some { rOld with
          ai_tags := rOld.ai_tags ++
            (if rOld.id = targetId then phrases else []) }) := by
  refine ⟨?_, ?_, ?_⟩
  · by_cases hcond : sm = true ∧ 0 < (tagFilters fa).length
    · obtain ⟨rfl, hlen⟩ := hcond
      have hf : tagFilters fa ≠ [] := by
        intro hnil; rw [hnil] at hlen; simp at hlen
      by_cases hc : smartCandidates st.store (tagFilters fa) = []
      · rw [recommend_empty_cands_eval st fa ai tOk lOk hf hc]
        exact ⟨0, [], (appendAiTags_nil st.store 0).symm⟩
      · cases ai with
        | success t tags reason =>
          cases hch : (chosenIndex t
              (smartCandidates st.store (tagFilters fa)).length).bind
              (fun i => (smartCandidates st.store (tagFilters fa))[i]?) with
          | some chosen =>
            rw [recommend_success_valid_eval st fa t tags reason tOk lOk chosen hf hch]
            by_cases hw : 0 < tags.length ∧ tOk = true
            · exact ⟨chosen.id, tags, by simp [hw]⟩
            · exact ⟨0, [], by simp [hw, appendAiTags_nil]⟩
          | none =>
            rw [recommend_success_invalid_eval st fa t tags reason tOk lOk hf hc hch]
            exact ⟨0, [], (appendAiTags_nil st.store 0).symm⟩
        | transportError =>
          rw [recommend_err_eval st fa _ tOk lOk hf hc (Or.inl rfl)]
          exact ⟨0, [], (appendAiTags_nil st.store 0).symm⟩
        | notOk =>
          rw [recommend_err_eval st fa _ tOk lOk hf hc (Or.inr (Or.inl rfl))]
          exact ⟨0, [], (appendAiTags_nil st.store 0).symm⟩
        | parseError =>
          rw [recommend_err_eval st fa _ tOk lOk hf hc (Or.inr (Or.inr rfl))]
          exact ⟨0, [], (appendAiTags_nil st.store 0).symm⟩
    · have heq : recommendCooking st fa sm ai tOk lOk =
          (quickPick st.store (tagFilters fa), st) := by
        unfold recommendCooking
        rw [if_neg hcond]
      rw [heq]
      exact ⟨0, [], (appendAiTags_nil st.store 0).symm⟩
  · cases parsed with
    | none => exact ⟨0, [], (appendAiTags_nil st.store 0).symm⟩
    | some ts =>
      by_cases hl : 0 < ts.length
      · exact ⟨recipeId, ts, by simp [bulkTagStep, hl]⟩
      · exact ⟨0, [], by simp [bulkTagStep, hl, appendAiTags_nil]⟩
  · intro store targetId phrases i rOld hi
    unfold appendAiTags
    rw [List.getElem?_map, hi]
    simp only [Option.map_some']
    split <;> rename_i hid <;> simp [hid]

/-- Witness for C6: appending `one pot` to the targeted recipe extends its
`ai_tags` in place, with the old value as a prefix. -/
theorem ai_tags_append_only_witness :
    (appendAiTags [rMainDish] 1 ["one pot"])[0]? =
      some { rMainDish with
        ai_tags := rMainDish.ai_tags ++
          (if rMainDish.id = 1 then ["one pot"] else []) } :=
  (ai_tags_append_only ⟨[], []⟩ [] false AIOutcome.transportError true true 0
      none).2.2 [rMainDish] 1 ["one pot"] 0 rMainDish rfl

end YummyCore
